import Mathlib

/-!
Verification of the snaptel plugin command layer (src/cmd/snaptel/plugin.go).

The Go code is shallowly embedded: Go strings become `List Char`, Go `int`
becomes `Int` (overflow of 64-bit ints is not modelled; no claim exercises
it), the stateful command handlers become pure functions returning the
command result together with the list of printed lines and the list of
remote-client calls, and a Go runtime panic (failed type assertion) becomes
an explicit `panicked` constructor.
-/

namespace Snaptel

/-- Go strings, modelled as their character lists. -/
abbrev GoStr := List Char

/-- Go `strings.HasPrefix s p` (used to build substring containment). -/
def goStartsWith : GoStr → GoStr → Bool
  | _, [] => true
  | [], _ :: _ => false
  | c :: s, d :: p => c == d && goStartsWith s p

/-- Go `strings.Contains s sub`: substring containment, case sensitive. -/
def goContains : GoStr → GoStr → Bool
  | [], sub => sub.isEmpty
  | c :: rest, sub => goStartsWith (c :: rest) sub || goContains rest sub

/-- Accumulator loop of decimal digit parsing: fails on any non-digit. -/
def digitsAux : GoStr → Nat → Option Nat
  | [], acc => some acc
  | c :: rest, acc =>
    if c.isDigit then digitsAux rest (acc * 10 + (c.toNat - 48)) else none

/-- Parse a non-empty all-digit string to a natural number. -/
def digitsToNat : GoStr → Option Nat
  | [] => none
  | c :: rest => digitsAux (c :: rest) 0

/-- Go `strconv.Atoi`: optional sign followed by at least one decimal digit.
(64-bit overflow, on which Go also errors, is not modelled; no claim
depends on it.) -/
def goAtoi : GoStr → Option Int
  | [] => none
  | c :: rest =>
    if c = '+' then (digitsToNat rest).map Int.ofNat
    else if c = '-' then (digitsToNat rest).map (fun n => -(n : Int))
    else (digitsToNat (c :: rest)).map Int.ofNat

/-- Go `strings.Split s (String.singleton sep)`: split around every
occurrence of the separator character; always returns at least one piece. -/
def goSplitChar (sep : Char) : GoStr → List GoStr
  | [] => [[]]
  | c :: rest =>
    if c == sep then [] :: goSplitChar sep rest
    else
      match goSplitChar sep rest with
      | [] => [[c]]
      | t :: ts => (c :: t) :: ts

/-- Go `filepath.SplitList` on a Unix platform: empty input gives the empty
list, otherwise split on the path-list delimiter, the colon. -/
def splitList (s : GoStr) : List GoStr :=
  if s = [] then [] else goSplitChar ':' s

/-- Go `fmt` rendering of a bool via the %v verb. -/
def goBoolStr (b : Bool) : GoStr :=
  if b then "true".data else "false".data

/-- Go `fmt` rendering of an int via the %d verb. -/
def goItoa (v : Int) : GoStr := (toString v).data

/-- Usage errors raised by the argument parsing; each constructor names one
of the newUsageError messages of plugin.go. -/
inductive UsageErr
  /-- message "Incorrect usage:" -/
  | incorrectUsage
  /-- message "Must be a .asc file for the -a flag" -/
  | notAscFile
  /-- message "Can not convert version string to integer" (InvalidVersion) -/
  | invalidVersion
  /-- message "Missing type, name, or version" (delimited token not 3 parts) -/
  | missingTypeNameVersion
  /-- message "Must provide plugin type" (MissingType) -/
  | missingType
  /-- message "Must provide plugin name" (MissingName) -/
  | missingName
  /-- message "Must provide plugin version" (MissingVersion) -/
  | missingVersion
deriving DecidableEq

/-- Errors a command handler can return: a usage error from parsing, or the
remote client error surfaced verbatim. -/
inductive CmdErr
  | usage (e : UsageErr)
  | remote (msg : GoStr)
deriving DecidableEq

/-- The (type, name, version) triple identifying the plugin to unload. -/
structure PluginSpec where
  type : GoStr
  name : GoStr
  version : Int
deriving DecidableEq

/-- Calls made to the remote plugin-management client. -/
inductive RemoteCall
  | unloadCall (ptype pname : GoStr) (ver : Int)
  | swapCall (paths : List GoStr) (ptype pname : GoStr) (ver : Int)
deriving DecidableEq

/-- Reply of pClient.UnloadPlugin. -/
structure UnloadResult where
  err : Option GoStr
  name : GoStr
  version : Int
  type : GoStr
deriving DecidableEq

/-- Loaded-plugin half of a swap reply (LoadedTime().Format(timeFormat) is
carried as an opaque already-formatted string). -/
structure SwapLoadedPlugin where
  name : GoStr
  version : Int
  type : GoStr
  signed : Bool
  loadedTime : GoStr
deriving DecidableEq

/-- Unloaded-plugin half of a swap reply. -/
structure SwapUnloadedPlugin where
  name : GoStr
  version : Int
  type : GoStr
deriving DecidableEq

/-- Reply of pClient.SwapPlugin. -/
structure SwapResult where
  err : Option GoStr
  loadedPlugin : SwapLoadedPlugin
  unloadedPlugin : SwapUnloadedPlugin
deriving DecidableEq

/-- The flag values a swap invocation carries (urfave/cli defaults: empty
string for an unset string flag, 0 for an unset int flag). -/
structure SwapFlags where
  pluginAsc : GoStr
  pluginType : GoStr
  pluginName : GoStr
  pluginVersion : Int
deriving DecidableEq

/-- Result of a command handler: the returned error (if any), the printed
lines in order, and the remote-client calls made, in order. An embedded
extra newline in a Go format string appears as an empty printed line. -/
abbrev CmdOut := Except CmdErr Unit × List GoStr × List RemoteCall

instance {ε α : Type} [DecidableEq ε] [DecidableEq α] : DecidableEq (Except ε α) := by
  intro a b
  cases a <;> cases b
  case error.error x y =>
    exact if h : x = y then isTrue (by rw [h]) else isFalse (fun hc => h (by cases hc; rfl))
  case error.ok x y => exact isFalse (fun hc => Except.noConfusion hc)
  case ok.error x y => exact isFalse (fun hc => Except.noConfusion hc)
  case ok.ok x y =>
    exact if h : x = y then isTrue (by rw [h]) else isFalse (fun hc => h (by cases hc; rfl))

/-- unloadPlugin of plugin.go: ctx.Args().Get(i) yields the empty string
out of range; checks run in source order (type, name, Atoi error, version
bound) and only then is the remote client called. -/
def unloadPluginCmd (args : List GoStr)
    (client : GoStr → GoStr → Int → UnloadResult) : CmdOut :=
  let pType := args.getD 0 []
  let pName := args.getD 1 []
  let atoiRes := goAtoi (args.getD 2 [])
  if pType = [] then (.error (.usage .missingType), [], [])
  else if pName = [] then (.error (.usage .missingName), [], [])
  else
    match atoiRes with
    | none => (.error (.usage .invalidVersion), [], [])
    | some pVer =>
      if pVer < 1 then (.error (.usage .missingVersion), [], [])
      else
        let r := client pType pName pVer
        match r.err with
        | some m => (.error (.remote m), [], [.unloadCall pType pName pVer])
        | none =>
          (.ok (),
           ["Plugin unloaded".data,
            "Name: ".data ++ r.name,
            "Version: ".data ++ goItoa r.version,
            "Type: ".data ++ r.type],
           [.unloadCall pType pName pVer])

/-- Argument resolution of swapPlugins in plugin.go, up to (but not
including) the remote call: load paths from the first positional argument
plus the optional .asc flag, then the unload triple from either the
delimited second positional token (when two positional arguments are
given) or the three discrete flags, then the shared validation. Early Go
returns become the Except error branch. -/
def swapResolve (args : List GoStr) (fl : SwapFlags) :
    Except UsageErr (List GoStr × PluginSpec) :=
  if args.length < 1 || args.length > 2 then .error .incorrectUsage
  else
    let paths0 := [args.getD 0 []]
    let pathsRes : Except UsageErr (List GoStr) :=
      if fl.pluginAsc ≠ [] then
        if ¬ goContains fl.pluginAsc ".asc".data then .error .notAscFile
        else .ok (paths0 ++ [fl.pluginAsc])
      else .ok paths0
    match pathsRes with
    | .error e => .error e
    | .ok paths =>
      let tripleRes : Except UsageErr (GoStr × GoStr × Int) :=
        if args.length == 2 then
          let pDetails := splitList (args.getD 1 [])
          if pDetails.length == 3 then
            match goAtoi (pDetails.getD 2 []) with
            | none => .error .invalidVersion
            | some v => .ok (pDetails.getD 0 [], pDetails.getD 1 [], v)
          else .error .missingTypeNameVersion
        else .ok (fl.pluginType, fl.pluginName, fl.pluginVersion)
      match tripleRes with
      | .error e => .error e
      | .ok (t, n, v) =>
        if t = [] then .error .missingType
        else if n = [] then .error .missingName
        else if v < 1 then .error .missingVersion
        else .ok (paths, ⟨t, n, v⟩)

/-- The lines swapPlugins prints on success, in source order. The format
string of the Loaded Time line ends in two newlines and the Println of the
Plugin unloaded heading starts with one, so two empty lines separate the
blocks. -/
def swapSuccessLines (l : SwapLoadedPlugin) (u : SwapUnloadedPlugin) : List GoStr :=
  ["Plugin loaded".data,
   "Name: ".data ++ l.name,
   "Version: ".data ++ goItoa l.version,
   "Type: ".data ++ l.type,
   "Signed: ".data ++ goBoolStr l.signed,
   "Loaded Time: ".data ++ l.loadedTime,
   [],
   [],
   "Plugin unloaded".data,
   "Name: ".data ++ u.name,
   "Version: ".data ++ goItoa u.version,
   "Type: ".data ++ u.type]

/-- swapPlugins of plugin.go: resolve the arguments, then make the single
remote swap call and render the dual outcome. -/
def swapPluginsCmd (args : List GoStr) (fl : SwapFlags)
    (client : List GoStr → GoStr → GoStr → Int → SwapResult) : CmdOut :=
  match swapResolve args fl with
  | .error e => (.error (.usage e), [], [])
  | .ok (paths, spec) =>
    let r := client paths spec.type spec.name spec.version
    match r.err with
    | some m => (.error (.remote m), [],
                 [.swapCall paths spec.type spec.name spec.version])
    | none => (.ok (), swapSuccessLines r.loadedPlugin r.unloadedPlugin,
               [.swapCall paths spec.type spec.name spec.version])

/-- A catalog entry, struct Plugin of plugin.go. -/
structure Plugin where
  name : GoStr
  fullName : GoStr
  type : GoStr
  owner : GoStr
  description : GoStr
  url : GoStr
  forks : Int
  stars : Int
  watchers : Int
  issues : Int
deriving DecidableEq

/-- Filter of plugin.go: keep, in order, the entries satisfying the
condition (the Go loop appends matches to a fresh slice). -/
def Filter : List Plugin → (Plugin → Bool) → List Plugin
  | [], _ => []
  | v :: vs, f => if f v then v :: Filter vs f else Filter vs f

/-- The in-memory filtering step of listCatalog in plugin.go, applied to
the decoded catalog with the values of the plugin-type and plugin-name
flags (empty string when a flag is unset). -/
def catalogFilter (pluginNames : List Plugin) (pType pName : GoStr) : List Plugin :=
  if pType ≠ [] ∧ pName ≠ [] then
    Filter pluginNames (fun v => goContains v.type pType && goContains v.fullName pName)
  else
    let l1 := if pType ≠ [] then
        Filter pluginNames (fun v => goContains v.type pType)
      else pluginNames
    if pName ≠ [] then
      Filter l1 (fun v => goContains v.fullName pName || goContains v.name pName)
    else l1

/-- A decoded JSON value, the shape behind Go interface-typed values
obtained from json.Unmarshal (objects keep field order; numbers are
restricted to integers, which is all the claims touch). -/
inductive JVal
  | jnull
  | jbool (b : Bool)
  | jnum (n : Int)
  | jstr (s : GoStr)
  | jarr (elems : List JVal)
  | jobj (fields : List (GoStr × JVal))

/-- Go map indexing: a missing key yields the nil interface (none). -/
def jlookup : List (GoStr × JVal) → GoStr → Option JVal
  | [], _ => none
  | (k, v) :: rest, key => if k = key then some v else jlookup rest key

/-- Approximate rendering of an interface value by fmt.Println via %v; the
exact Go rendering of composite values is abbreviated, and no claim
evaluates it. -/
def jvalFormat : JVal → GoStr
  | .jnull => "<nil>".data
  | .jbool b => goBoolStr b
  | .jnum n => goItoa n
  | .jstr s => s
  | .jarr _ => "[...]".data
  | .jobj _ => "map[...]".data

/-- Outcome of the asset-printing loop of listReleaseLinks: either a Go
runtime panic (after the lines already printed), or normal completion. -/
inductive ReleaseLinksOutcome
  | panicked (printed : List GoStr)
  | done (printed : List GoStr)
deriving DecidableEq

/-- One iteration of the loop: the type assertion
v.(map[string]interface{}) panics unless v is an object; then
fmt.Println(asset["browser_download_url"]) prints the looked-up value (the
nil interface prints as the nil placeholder). -/
def printedAsset (v : JVal) : Option GoStr :=
  match v with
  | .jobj fs =>
    some (match jlookup fs "browser_download_url".data with
          | some w => jvalFormat w
          | none => "<nil>".data)
  | _ => none

/-- The printing loop of listReleaseLinks over the asserted assets slice. -/
def printAssets : List JVal → List GoStr → ReleaseLinksOutcome
  | [], acc => .done acc
  | v :: rest, acc =>
    match printedAsset v with
    | none => .panicked acc
    | some line => printAssets rest (acc ++ [line])

/-- The extraction and printing part of listReleaseLinks of plugin.go,
given the decoded latest-release document: the unchecked type assertion
data["assets"].([]interface{}) panics unless the assets field is present
and is an array. -/
def listReleaseLinksRender (data : List (GoStr × JVal)) : ReleaseLinksOutcome :=
  match jlookup data "assets".data with
  | some (.jarr xs) => printAssets xs []
  | _ => .panicked []

/-- Outcome of the resolution part of downloadxPlugin: a runtime panic (the
tag_name type assertion), the unsupported-architecture error returned
before any URL is built, or the download of a constructed URL. -/
inductive DlxResult
  | panicked
  | archError
  | download (url : GoStr) (fileName : GoStr)
deriving DecidableEq

/-- The architecture switch of downloadxPlugin in plugin.go: none models
the default branch returning the unsupported-architecture error. -/
def archMap (goarch : GoStr) : Option GoStr :=
  if goarch = "amd64".data then some "x86_64".data
  else if goarch = "386".data then some "x86_32".data
  else none

/-- The major tag of downloadxPlugin: strings.Split(tagName, ".")[0]. -/
def resolvedMajorTag (ts : GoStr) : GoStr :=
  (goSplitChar '.' ts).headD []

/-- The download URL format string of downloadxPlugin, instantiated. -/
def downloadLinkFmt (pluginName tag goos arch : GoStr) : GoStr :=
  "https://github.com/intelsdi-x/".data ++ pluginName
    ++ "/releases/download/".data ++ tag
    ++ "/snap-plugin-publisher-file_".data ++ goos ++ "_".data ++ arch

/-- The resolution of downloadxPlugin of plugin.go after fetching the
latest-release document: assert tag_name is a string (else panic), take
the token before the first dot, map the architecture (failing before any
URL is constructed), then build the download link. -/
def downloadxResolve (pluginName : GoStr) (data : List (GoStr × JVal))
    (goos goarch : GoStr) : DlxResult :=
  match jlookup data "tag_name".data with
  | some (.jstr ts) =>
    let tag := resolvedMajorTag ts
    match archMap goarch with
    | none => .archError
    | some arch => .download (downloadLinkFmt pluginName tag goos arch) pluginName
  | _ => .panicked

/-- The loaded-plugin block as the spec words it (heading, then Name,
Version, Type, Signed, Loaded Time); stated from the spec for comparison
with the rendering of swapPluginsCmd. -/
def specLoadedBlock (l : SwapLoadedPlugin) : List GoStr :=
  ["Plugin loaded".data,
   "Name: ".data ++ l.name,
   "Version: ".data ++ goItoa l.version,
   "Type: ".data ++ l.type,
   "Signed: ".data ++ goBoolStr l.signed,
   "Loaded Time: ".data ++ l.loadedTime]

/-- The unloaded-plugin block as the spec words it (heading, then Name,
Version, Type); stated from the spec for comparison with the rendering of
swapPluginsCmd. -/
def specUnloadedBlock (u : SwapUnloadedPlugin) : List GoStr :=
  ["Plugin unloaded".data,
   "Name: ".data ++ u.name,
   "Version: ".data ++ goItoa u.version,
   "Type: ".data ++ u.type]

/-- A remote client for the unload scenario of the spec: success exactly
for (storage, mock-collector, 2). -/
def unloadClientMock : GoStr → GoStr → Int → UnloadResult := fun t n v =>
  if t = "storage".data ∧ n = "mock-collector".data ∧ v = 2 then
    ⟨none, "mock-collector".data, 2, "storage".data⟩
  else ⟨some "plugin not found".data, [], 0, []⟩

/-- A remote client for the swap scenario of the spec: always succeeds,
reporting a freshly loaded plugin and the unloaded (storage, old-plugin, 1). -/
def swapClientMock : List GoStr → GoStr → GoStr → Int → SwapResult := fun _ _ _ _ =>
  ⟨none,
   ⟨"new-plugin".data, 2, "collector".data, true, "Fri, 02 Jan 2015 15:04:05 UTC".data⟩,
   ⟨"old-plugin".data, 1, "storage".data⟩⟩

/-- A catalog entry whose Name contains a filter string that its FullName
does not contain. -/
def pluginCexA : Plugin :=
  ⟨"abc".data, "xyz".data, "collector".data, [], [], [], 0, 0, 0, 0⟩

/-- A catalog entry whose Name contains the name filter while its FullName
does not, and whose Type matches a type filter. -/
def pluginCexB : Plugin :=
  ⟨"mock-collector".data, "repo/alpha".data, "collector".data, [], [], [], 0, 0, 0, 0⟩

/-! Helper lemmas about the embedded string operations. -/

theorem goSplitChar_ne_nil (sep : Char) (l : GoStr) : goSplitChar sep l ≠ [] := by
  induction l with
  | nil => simp [goSplitChar]
  | cons c rest ih =>
    simp only [goSplitChar]
    by_cases h : c == sep
    · simp [h]
    · simp only [h]
      cases hr : goSplitChar sep rest with
      | nil => simp
      | cons t ts => simp

theorem headD_goSplitChar (sep : Char) (l : GoStr) :
    (goSplitChar sep l).headD [] = l.takeWhile (fun c => c != sep) := by
  induction l with
  | nil => rfl
  | cons c rest ih =>
    simp only [goSplitChar, List.takeWhile]
    by_cases h : c == sep
    · have hb : (c != sep) = false := by simpa using h
      simp [h, hb]
    · have hb : (c != sep) = true := by simpa using h
      cases hr : goSplitChar sep rest with
      | nil => exact absurd hr (goSplitChar_ne_nil sep rest)
      | cons t ts =>
        rw [hr] at ih
        simp only [List.headD_cons] at ih
        simp [h, hb, hr, ih]

theorem goSplitChar_of_not_mem (sep : Char) (l : GoStr) (h : sep ∉ l) :
    goSplitChar sep l = [l] := by
  induction l with
  | nil => rfl
  | cons c rest ih =>
    have hc : ¬ (c == sep) := by
      simp only [beq_iff_eq]
      intro he
      exact h (he ▸ List.mem_cons_self c rest)
    have hrest : sep ∉ rest := fun hm => h (List.mem_cons_of_mem c hm)
    simp only [goSplitChar, hc, if_neg, ih hrest]
    simp [hc]

theorem goSplitChar_append (sep : Char) (l₁ l₂ : GoStr) (h : sep ∉ l₁) :
    goSplitChar sep (l₁ ++ sep :: l₂) = l₁ :: goSplitChar sep l₂ := by
  induction l₁ with
  | nil => simp [goSplitChar]
  | cons c rest ih =>
    have hc : ¬ (c == sep) := by
      simp only [beq_iff_eq]
      intro he
      exact h (he ▸ List.mem_cons_self c rest)
    have hrest : sep ∉ rest := fun hm => h (List.mem_cons_of_mem c hm)
    simp only [List.cons_append, goSplitChar, List.append_eq]
    rw [ih hrest]
    simp [hc]

theorem digitsAux_isDigit (l : GoStr) (acc n : Nat) (h : digitsAux l acc = some n) :
    ∀ c ∈ l, c.isDigit := by
  induction l generalizing acc with
  | nil => intro c hc; cases hc
  | cons d rest ih =>
    intro c hc
    simp only [digitsAux] at h
    by_cases hd : d.isDigit
    · rw [if_pos hd] at h
      cases hc with
      | head => exact hd
      | tail _ hm => exact ih _ h c hm
    · rw [if_neg hd] at h
      cases h

theorem digitsToNat_isDigit (l : GoStr) (n : Nat) (h : digitsToNat l = some n) :
    ∀ c ∈ l, c.isDigit := by
  cases l with
  | nil => intro c hc; cases hc
  | cons d rest => exact digitsAux_isDigit _ _ _ h

theorem goAtoi_colon_not_mem (vs : GoStr) (v : Int) (h : goAtoi vs = some v) :
    ':' ∉ vs := by
  cases vs with
  | nil => simp
  | cons c rest =>
    simp only [goAtoi] at h
    intro hm
    by_cases hp : c = '+'
    · rw [if_pos hp] at h
      cases hdn : digitsToNat rest with
      | none => rw [hdn] at h; cases h
      | some n =>
        have hall := digitsToNat_isDigit rest n hdn
        cases hm with
        | head => exact absurd rfl (hp ▸ (by decide : ¬ (':' = '+')))
        | tail _ hm2 => exact absurd (hall ':' hm2) (by decide)
    · rw [if_neg hp] at h
      by_cases hn : c = '-'
      · rw [if_pos hn] at h
        cases hdn : digitsToNat rest with
        | none => rw [hdn] at h; cases h
        | some n =>
          have hall := digitsToNat_isDigit rest n hdn
          cases hm with
          | head => exact absurd rfl (hn ▸ (by decide : ¬ (':' = '-')))
          | tail _ hm2 => exact absurd (hall ':' hm2) (by decide)
      · rw [if_neg hn] at h
        cases hdn : digitsToNat (c :: rest) with
        | none => rw [hdn] at h; cases h
        | some n =>
          have hall := digitsToNat_isDigit _ n hdn
          exact absurd (hall ':' hm) (by decide)

theorem Filter_Filter (vs : List Plugin) (f g : Plugin → Bool) :
    Filter (Filter vs f) g = Filter vs (fun v => f v && g v) := by
  induction vs with
  | nil => rfl
  | cons v rest ih =>
    simp only [Filter]
    by_cases hf : f v
    · by_cases hg : g v
      · simp [Filter, hf, hg, ih]
      · simp [Filter, hf, hg, ih]
    · simp [Filter, hf, ih]

/-- C6: the release-asset resolver maps amd64 to x86_64 and 386 to x86_32,
and for any other architecture identifier it fails with the
unsupported-architecture error before a download URL is constructed (the
result carries no URL and no download happens). -/
theorem c6_arch_mapping :
    archMap "amd64".data = some "x86_64".data
    ∧ archMap "386".data = some "x86_32".data
    ∧ (∀ a : GoStr, a ≠ "amd64".data → a ≠ "386".data → archMap a = none)
    ∧ (∀ (a pn goos ts : GoStr) (data : List (GoStr × JVal)),
        a ≠ "amd64".data → a ≠ "386".data →
        jlookup data "tag_name".data = some (.jstr ts) →
        downloadxResolve pn data goos a = .archError) := by
  refine ⟨by decide, by decide, ?_, ?_⟩
  · intro a h1 h2
    simp [archMap, h1, h2]
  · intro a pn goos ts data h1 h2 h3
    simp [downloadxResolve, h3, archMap, h1, h2]

/-- Witness for c6_arch_mapping at the concrete architecture arm. -/
theorem c6_arch_mapping_inst :
    archMap "arm".data = none
    ∧ downloadxResolve "snap-plugin".data [("tag_name".data, .jstr "2.4.1-beta".data)]
        "linux".data "arm".data = .archError :=
  ⟨c6_arch_mapping.2.2.1 "arm".data (by decide) (by decide),
   c6_arch_mapping.2.2.2 "arm".data "snap-plugin".data "linux".data "2.4.1-beta".data
     [("tag_name".data, .jstr "2.4.1-beta".data)] (by decide) (by decide)
     (by simp [jlookup])⟩

/-- C7: the resolved major tag is exactly the token of the tag_name before
the first dot (its longest dot-free starting segment), it is the tag used
in the constructed download URL, and for the tag_name 2.4.1-beta it is 2. -/
theorem c7_major_tag_before_first_dot :
    (∀ ts : GoStr, resolvedMajorTag ts = ts.takeWhile (fun c => c != '.'))
    ∧ resolvedMajorTag "2.4.1-beta".data = "2".data
    ∧ (∀ (pn goos a ts m : GoStr) (data : List (GoStr × JVal)),
        jlookup data "tag_name".data = some (.jstr ts) →
        archMap a = some m →
        downloadxResolve pn data goos a =
          .download (downloadLinkFmt pn (ts.takeWhile (fun c => c != '.')) goos m) pn) := by
  refine ⟨fun ts => headD_goSplitChar '.' ts, by decide, ?_⟩
  intro pn goos a ts m data h1 h2
  simp only [downloadxResolve, h1, h2, resolvedMajorTag, headD_goSplitChar]

/-- Witness for c7_major_tag_before_first_dot at the tag 2.4.1-beta and
architecture amd64. -/
theorem c7_major_tag_inst :
    downloadxResolve "snap-plugin".data [("tag_name".data, .jstr "2.4.1-beta".data)]
        "linux".data "amd64".data =
      .download (downloadLinkFmt "snap-plugin".data
        ("2.4.1-beta".data.takeWhile (fun c => c != '.')) "linux".data "x86_64".data)
        "snap-plugin".data :=
  c7_major_tag_before_first_dot.2.2 "snap-plugin".data "linux".data "amd64".data
    "2.4.1-beta".data "x86_64".data [("tag_name".data, .jstr "2.4.1-beta".data)]
    (by simp [jlookup]) (by decide)

/-- C5 (code bug): on a latest-release document whose assets field is
missing or is not an array, listReleaseLinks does not fail with a
MalformedRelease error: the unchecked type assertion is a runtime panic,
after printing no asset URL. -/
theorem c5_malformed_release_panics :
    listReleaseLinksRender [] = .panicked []
    ∧ listReleaseLinksRender [("assets".data, .jstr "not-an-array".data)] = .panicked []
    ∧ (∀ data : List (GoStr × JVal),
        (∀ xs : List JVal, jlookup data "assets".data ≠ some (.jarr xs)) →
        listReleaseLinksRender data = .panicked []) := by
  refine ⟨rfl, by simp [listReleaseLinksRender, jlookup], ?_⟩
  intro data h
  unfold listReleaseLinksRender
  cases hl : jlookup data "assets".data with
  | none => rfl
  | some v =>
    cases v with
    | jarr xs => exact absurd hl (h xs)
    | jnull => rfl
    | jbool b => rfl
    | jnum n => rfl
    | jstr s => rfl
    | jobj fs => rfl

/-- Witness for c5_malformed_release_panics on a document with no assets
field at all. -/
theorem c5_malformed_release_inst :
    listReleaseLinksRender [("tag_name".data, .jstr "2.4.1".data)] = .panicked [] :=
  c5_malformed_release_panics.2.2 [("tag_name".data, .jstr "2.4.1".data)]
    (fun xs h => by simp [jlookup] at h)

/-- C3 counterexample: on a one-entry catalog whose entry matches the type
filter and whose Name (but not FullName) contains the name filter,
filtering by type alone and then by name alone keeps the entry, while the
both-filters-at-once form drops it, so the two are not equal. -/
theorem c3_sequential_vs_both_disagree :
    catalogFilter (catalogFilter [pluginCexA] "col".data []) [] "ab".data = [pluginCexA]
    ∧ catalogFilter [pluginCexA] "col".data "ab".data = [] := by decide

/-- C3 (amended): for every catalog and non-empty type and name filters,
the both-filters-at-once form equals filtering by the type filter alone
and then keeping the entries whose FullName contains the name filter; the
Name field does not take part when both filters are supplied. -/
theorem c3_both_filters_fullname_only :
    ∀ (cat : List Plugin) (t n : GoStr), t ≠ [] → n ≠ [] →
    catalogFilter cat t n =
      Filter (catalogFilter cat t []) (fun v => goContains v.fullName n) := by
  intro cat t n ht hn
  have h1 : catalogFilter cat t [] = Filter cat (fun v => goContains v.type t) := by
    simp [catalogFilter, ht]
  rw [h1, Filter_Filter]
  simp [catalogFilter, ht, hn]

/-- Witness for c3_both_filters_fullname_only at a concrete catalog. -/
theorem c3_both_filters_inst :
    catalogFilter [pluginCexA] "col".data "ab".data =
      Filter (catalogFilter [pluginCexA] "col".data [])
        (fun v => goContains v.fullName "ab".data) :=
  c3_both_filters_fullname_only [pluginCexA] "col".data "ab".data (by decide) (by decide)

/-- C4 counterexample: an entry whose Name contains the name filter while
its FullName does not, and whose Type contains the type filter, is kept by
the name-only filtering but dropped when a type filter is also supplied,
so the FullName-or-Name rule is not the one applied in the both-filters
form. -/
theorem c4_name_rule_depends_on_type_filter :
    (goContains pluginCexB.fullName "mock".data
      || goContains pluginCexB.name "mock".data) = true
    ∧ goContains pluginCexB.type "coll".data = true
    ∧ catalogFilter [pluginCexB] [] "mock".data = [pluginCexB]
    ∧ catalogFilter [pluginCexB] "coll".data "mock".data = [] := by decide

/-- C4 (amended): with only a name filter supplied an entry matches iff
its FullName or its Name contains the filter as a substring; when a type
filter is also supplied the name condition is FullName containment only. -/
theorem c4_name_rule_by_form :
    (∀ (cat : List Plugin) (n : GoStr), n ≠ [] →
      catalogFilter cat [] n =
        Filter cat (fun v => goContains v.fullName n || goContains v.name n))
    ∧ (∀ (cat : List Plugin) (t n : GoStr), t ≠ [] → n ≠ [] →
      catalogFilter cat t n =
        Filter cat (fun v => goContains v.type t && goContains v.fullName n)) := by
  constructor
  · intro cat n hn
    simp [catalogFilter, hn]
  · intro cat t n ht hn
    simp [catalogFilter, ht, hn]

/-- Witness for c4_name_rule_by_form at a concrete catalog and filters. -/
theorem c4_name_rule_inst :
    catalogFilter [pluginCexB] [] "mock".data =
      Filter [pluginCexB]
        (fun v => goContains v.fullName "mock".data || goContains v.name "mock".data)
    ∧ catalogFilter [pluginCexB] "coll".data "mock".data =
      Filter [pluginCexB]
        (fun v => goContains v.type "coll".data && goContains v.fullName "mock".data) :=
  ⟨c4_name_rule_by_form.1 [pluginCexB] "mock".data (by decide),
   c4_name_rule_by_form.2 [pluginCexB] "coll".data "mock".data (by decide) (by decide)⟩

/-- C8 counterexample: in the unload scenario the command prints four
lines, not three. -/
theorem c8_not_three_lines :
    (unloadPluginCmd ["storage".data, "mock-collector".data, "2".data]
      unloadClientMock).2.1.length ≠ 3 := by decide

/-- C8 (amended): invoked as unload storage mock-collector 2 against a
remote client succeeding for (storage, mock-collector, 2), the command
prints exactly the four lines Plugin unloaded, Name: mock-collector,
Version: 2, Type: storage, in that order and nothing else, and makes
exactly that one remote unload call. -/
theorem c8_unload_prints_four_lines :
    unloadPluginCmd ["storage".data, "mock-collector".data, "2".data] unloadClientMock =
      (.ok (),
       ["Plugin unloaded".data,
        "Name: mock-collector".data,
        "Version: 2".data,
        "Type: storage".data],
       [.unloadCall "storage".data "mock-collector".data 2]) := by decide

/-- C9 counterexample: in the swap scenario the rendered output is not the
loaded block, a single blank line, and the unloaded block: the source
emits two consecutive blank lines between the blocks. -/
theorem c9_not_single_blank_separator :
    (swapPluginsCmd ["new.plugin".data, "storage:old-plugin:1".data] ⟨[], [], [], 0⟩
        swapClientMock).2.1 ≠
      specLoadedBlock ⟨"new-plugin".data, 2, "collector".data, true,
          "Fri, 02 Jan 2015 15:04:05 UTC".data⟩
        ++ [[]] ++ specUnloadedBlock ⟨"old-plugin".data, 1, "storage".data⟩ := by decide

/-- C9 (amended): every successful swap invocation renders the
loaded-plugin block, then exactly two blank lines, then the
unloaded-plugin block, in that fixed order with loaded first. -/
theorem c9_two_blank_separator :
    ∀ (args : List GoStr) (fl : SwapFlags)
      (client : List GoStr → GoStr → GoStr → Int → SwapResult)
      (out : List GoStr) (calls : List RemoteCall),
      swapPluginsCmd args fl client = (.ok (), out, calls) →
      ∃ l u, out = specLoadedBlock l ++ [[], []] ++ specUnloadedBlock u := by
  intro args fl client out calls h
  unfold swapPluginsCmd at h
  cases hres : swapResolve args fl with
  | error e => rw [hres] at h; simp at h
  | ok ps =>
    rw [hres] at h
    obtain ⟨paths, spec⟩ := ps
    cases herr : (client paths spec.type spec.name spec.version).err with
    | some m => simp [herr] at h
    | none =>
      simp only [herr] at h
      refine ⟨(client paths spec.type spec.name spec.version).loadedPlugin,
              (client paths spec.type spec.name spec.version).unloadedPlugin, ?_⟩
      have hout : out = swapSuccessLines
          (client paths spec.type spec.name spec.version).loadedPlugin
          (client paths spec.type spec.name spec.version).unloadedPlugin := by
        have := congrArg (fun x : CmdOut => x.2.1) h
        simpa using this.symm
      rw [hout]
      rfl

/-- Witness for c9_two_blank_separator at the concrete swap scenario. -/
theorem c9_two_blank_inst :
    ∃ l u,
      ["Plugin loaded".data,
       "Name: new-plugin".data,
       "Version: 2".data,
       "Type: collector".data,
       "Signed: true".data,
       "Loaded Time: Fri, 02 Jan 2015 15:04:05 UTC".data,
       [], [],
       "Plugin unloaded".data,
       "Name: old-plugin".data,
       "Version: 1".data,
       "Type: storage".data] =
      specLoadedBlock l ++ [[], []] ++ specUnloadedBlock u :=
  c9_two_blank_separator ["new.plugin".data, "storage:old-plugin:1".data] ⟨[], [], [], 0⟩
    swapClientMock _ [.swapCall ["new.plugin".data] "storage".data "old-plugin".data 1]
    (by decide)

/-- C10: when swap is given exactly two positional arguments, the values
of the plugin-type, plugin-name and plugin-version flags have no effect:
two invocations differing only in those three flag values resolve the same
unload spec and produce identical command outcomes. -/
theorem c10_flags_ignored_with_two_args :
    ∀ (args : List GoStr) (fl1 fl2 : SwapFlags)
      (client : List GoStr → GoStr → GoStr → Int → SwapResult),
      args.length = 2 → fl1.pluginAsc = fl2.pluginAsc →
      swapResolve args fl1 = swapResolve args fl2
      ∧ swapPluginsCmd args fl1 client = swapPluginsCmd args fl2 client := by
  intro args fl1 fl2 client hlen hasc
  have hres : swapResolve args fl1 = swapResolve args fl2 := by
    unfold swapResolve
    rw [hasc]
    simp [hlen]
  exact ⟨hres, by unfold swapPluginsCmd; rw [hres]⟩

/-- Witness for c10_flags_ignored_with_two_args: two concrete invocations
with two positional arguments and different discrete flag values. -/
theorem c10_flags_ignored_inst :
    swapResolve ["new.plugin".data, "storage:old-plugin:1".data]
        ⟨[], "processor".data, "other".data, 9⟩ =
      swapResolve ["new.plugin".data, "storage:old-plugin:1".data] ⟨[], [], [], 0⟩
    ∧ swapPluginsCmd ["new.plugin".data, "storage:old-plugin:1".data]
        ⟨[], "processor".data, "other".data, 9⟩ swapClientMock =
      swapPluginsCmd ["new.plugin".data, "storage:old-plugin:1".data]
        ⟨[], [], [], 0⟩ swapClientMock :=
  c10_flags_ignored_with_two_args ["new.plugin".data, "storage:old-plugin:1".data]
    ⟨[], "processor".data, "other".data, 9⟩ ⟨[], [], [], 0⟩ swapClientMock
    (by decide) (by decide)

/-- C1 counterexample: with the non-empty plugin type a:b, non-empty name
x and version 1, the discrete-flag form is accepted and resolves the spec
(a:b, x, 1), while the single token joining the three with the path-list
delimiter splits into four segments and is rejected, so the two forms do
not agree for every non-empty type and name. -/
theorem c1_delim_flag_disagree :
    swapResolve ["new.plugin".data,
        "a:b".data ++ [':'] ++ "x".data ++ [':'] ++ "1".data] ⟨[], [], [], 0⟩ =
      .error .missingTypeNameVersion
    ∧ swapResolve ["new.plugin".data] ⟨[], "a:b".data, "x".data, 1⟩ =
      .ok (["new.plugin".data], ⟨"a:b".data, "x".data, 1⟩) := by decide

/-- C1 (amended): for every non-empty plugin type and name free of the
path-list delimiter, and every version string parsing to an integer v with
v at least 1, the delimited-token form and the discrete three-flag form
are both accepted, resolve the identical PluginSpec (type, name, v), and
the full swap command behaves identically under both (the same triple is
passed to the remote swap call). -/
theorem c1_forms_agree_no_delim :
    ∀ (p t n vs ft fn : GoStr) (v fv : Int)
      (client : List GoStr → GoStr → GoStr → Int → SwapResult),
      t ≠ [] → n ≠ [] → ':' ∉ t → ':' ∉ n →
      goAtoi vs = some v → 1 ≤ v →
      swapResolve [p, t ++ [':'] ++ n ++ [':'] ++ vs] ⟨[], ft, fn, fv⟩ =
        .ok ([p], ⟨t, n, v⟩)
      ∧ swapResolve [p] ⟨[], t, n, v⟩ = .ok ([p], ⟨t, n, v⟩)
      ∧ swapPluginsCmd [p, t ++ [':'] ++ n ++ [':'] ++ vs] ⟨[], ft, fn, fv⟩ client =
        swapPluginsCmd [p] ⟨[], t, n, v⟩ client := by
  intro p t n vs ft fn v fv client ht hn htc hnc hv h1v
  have hvlt : ¬ (v < 1) := not_lt.mpr h1v
  have htok : t ++ [':'] ++ n ++ [':'] ++ vs = t ++ ':' :: (n ++ ':' :: vs) := by simp
  have hne : t ++ ':' :: (n ++ ':' :: vs) ≠ [] := by
    cases t with
    | nil => exact absurd rfl ht
    | cons c r => simp
  have hsplit : splitList (t ++ ':' :: (n ++ ':' :: vs)) = [t, n, vs] := by
    unfold splitList
    rw [if_neg hne, goSplitChar_append ':' t _ htc, goSplitChar_append ':' n _ hnc,
        goSplitChar_of_not_mem ':' vs (goAtoi_colon_not_mem vs v hv)]
  have hA : swapResolve [p, t ++ [':'] ++ n ++ [':'] ++ vs] ⟨[], ft, fn, fv⟩ =
      .ok ([p], ⟨t, n, v⟩) := by
    simp [swapResolve, hsplit, hv, ht, hn, hvlt]
  have hB : swapResolve [p] ⟨[], t, n, v⟩ = .ok ([p], ⟨t, n, v⟩) := by
    simp [swapResolve, ht, hn, hvlt]
  exact ⟨hA, hB, by unfold swapPluginsCmd; rw [hA, hB]⟩

/-- Witness for c1_forms_agree_no_delim at (storage, old-plugin, 1). -/
theorem c1_forms_agree_inst :
    swapResolve ["new.plugin".data,
        "storage".data ++ [':'] ++ "old-plugin".data ++ [':'] ++ "1".data]
      ⟨[], "x".data, "y".data, 9⟩ =
      .ok (["new.plugin".data], ⟨"storage".data, "old-plugin".data, 1⟩)
    ∧ swapResolve ["new.plugin".data] ⟨[], "storage".data, "old-plugin".data, 1⟩ =
      .ok (["new.plugin".data], ⟨"storage".data, "old-plugin".data, 1⟩)
    ∧ swapPluginsCmd ["new.plugin".data,
        "storage".data ++ [':'] ++ "old-plugin".data ++ [':'] ++ "1".data]
      ⟨[], "x".data, "y".data, 9⟩ swapClientMock =
      swapPluginsCmd ["new.plugin".data] ⟨[], "storage".data, "old-plugin".data, 1⟩
        swapClientMock :=
  c1_forms_agree_no_delim "new.plugin".data "storage".data "old-plugin".data "1".data
    "x".data "y".data 1 9 swapClientMock (by decide) (by decide) (by decide) (by decide)
    (by decide) (by decide)

/-- C2: for the unload and swap argument parsing, each single failing
condition produces its corresponding error kind (empty type: MissingType;
empty name: MissingName; unparsable version string: InvalidVersion;
version below 1: MissingVersion) and the remote client is never called:
the unload conjuncts return an empty remote-call list, and every swap
resolution failure makes the command return with an empty remote-call
list. -/
theorem c2_parse_errors_no_remote_call :
    (∀ (client : GoStr → GoStr → Int → UnloadResult) (n vs : GoStr),
      unloadPluginCmd [[], n, vs] client = (.error (.usage .missingType), [], []))
    ∧ (∀ (client : GoStr → GoStr → Int → UnloadResult) (t vs : GoStr), t ≠ [] →
      unloadPluginCmd [t, [], vs] client = (.error (.usage .missingName), [], []))
    ∧ (∀ (client : GoStr → GoStr → Int → UnloadResult) (t n vs : GoStr),
      t ≠ [] → n ≠ [] → goAtoi vs = none →
      unloadPluginCmd [t, n, vs] client = (.error (.usage .invalidVersion), [], []))
    ∧ (∀ (client : GoStr → GoStr → Int → UnloadResult) (t n vs : GoStr) (v : Int),
      t ≠ [] → n ≠ [] → goAtoi vs = some v → v < 1 →
      unloadPluginCmd [t, n, vs] client = (.error (.usage .missingVersion), [], []))
    ∧ (∀ (args : List GoStr) (fl : SwapFlags)
        (client : List GoStr → GoStr → GoStr → Int → SwapResult) (e : UsageErr),
      swapResolve args fl = .error e →
      swapPluginsCmd args fl client = (.error (.usage e), [], []))
    ∧ (∀ (p tok t n vs : GoStr) (fl : SwapFlags), fl.pluginAsc = [] →
      splitList tok = [t, n, vs] → goAtoi vs = none →
      swapResolve [p, tok] fl = .error .invalidVersion)
    ∧ (∀ (p tok n vs : GoStr) (fl : SwapFlags) (v : Int), fl.pluginAsc = [] →
      splitList tok = [[], n, vs] → goAtoi vs = some v →
      swapResolve [p, tok] fl = .error .missingType)
    ∧ (∀ (p tok t vs : GoStr) (fl : SwapFlags) (v : Int), fl.pluginAsc = [] → t ≠ [] →
      splitList tok = [t, [], vs] → goAtoi vs = some v →
      swapResolve [p, tok] fl = .error .missingName)
    ∧ (∀ (p tok t n vs : GoStr) (fl : SwapFlags) (v : Int), fl.pluginAsc = [] →
      t ≠ [] → n ≠ [] → splitList tok = [t, n, vs] → goAtoi vs = some v → v < 1 →
      swapResolve [p, tok] fl = .error .missingVersion)
    ∧ (∀ (p n : GoStr) (v : Int),
      swapResolve [p] ⟨[], [], n, v⟩ = .error .missingType)
    ∧ (∀ (p t : GoStr) (v : Int), t ≠ [] →
      swapResolve [p] ⟨[], t, [], v⟩ = .error .missingName)
    ∧ (∀ (p t n : GoStr) (v : Int), t ≠ [] → n ≠ [] → v < 1 →
      swapResolve [p] ⟨[], t, n, v⟩ = .error .missingVersion) := by
  refine ⟨?_, ?_, ?_, ?_, ?_, ?_, ?_, ?_, ?_, ?_, ?_, ?_⟩
  · intro client n vs
    simp [unloadPluginCmd]
  · intro client t vs ht
    simp [unloadPluginCmd, ht]
  · intro client t n vs ht hn hv
    simp [unloadPluginCmd, ht, hn, hv]
  · intro client t n vs v ht hn hv hlt
    simp [unloadPluginCmd, ht, hn, hv, hlt]
  · intro args fl client e h
    simp [swapPluginsCmd, h]
  · intro p tok t n vs fl hasc hsplit hv
    simp [swapResolve, hasc, hsplit, hv]
  · intro p tok n vs fl v hasc hsplit hv
    simp [swapResolve, hasc, hsplit, hv]
  · intro p tok t vs fl v hasc ht hsplit hv
    simp [swapResolve, hasc, hsplit, hv, ht]
  · intro p tok t n vs fl v hasc ht hn hsplit hv hlt
    simp [swapResolve, hasc, hsplit, hv, ht, hn, hlt]
  · intro p n v
    simp [swapResolve]
  · intro p t v ht
    simp [swapResolve, ht]
  · intro p t n v ht hn hlt
    simp [swapResolve, ht, hn, hlt]

/-- Witness for c2_parse_errors_no_remote_call: each conjunct applied at a
concrete failing input. -/
theorem c2_parse_errors_inst :
    unloadPluginCmd [[], "m".data, "2".data] unloadClientMock =
      (.error (.usage .missingType), [], [])
    ∧ unloadPluginCmd ["storage".data, [], "2".data] unloadClientMock =
      (.error (.usage .missingName), [], [])
    ∧ unloadPluginCmd ["storage".data, "m".data, "x7".data] unloadClientMock =
      (.error (.usage .invalidVersion), [], [])
    ∧ unloadPluginCmd ["storage".data, "m".data, "0".data] unloadClientMock =
      (.error (.usage .missingVersion), [], [])
    ∧ swapPluginsCmd [] ⟨[], [], [], 0⟩ swapClientMock =
      (.error (.usage .incorrectUsage), [], [])
    ∧ swapResolve ["p".data, "a:b:x7".data] ⟨[], [], [], 0⟩ = .error .invalidVersion
    ∧ swapResolve ["p".data, ":b:2".data] ⟨[], [], [], 0⟩ = .error .missingType
    ∧ swapResolve ["p".data, "a::2".data] ⟨[], [], [], 0⟩ = .error .missingName
    ∧ swapResolve ["p".data, "a:b:0".data] ⟨[], [], [], 0⟩ = .error .missingVersion
    ∧ swapResolve ["p".data] ⟨[], [], "b".data, 2⟩ = .error .missingType
    ∧ swapResolve ["p".data] ⟨[], "a".data, [], 2⟩ = .error .missingName
    ∧ swapResolve ["p".data] ⟨[], "a".data, "b".data, 0⟩ = .error .missingVersion :=
  ⟨c2_parse_errors_no_remote_call.1 unloadClientMock "m".data "2".data,
   c2_parse_errors_no_remote_call.2.1 unloadClientMock "storage".data "2".data (by decide),
   c2_parse_errors_no_remote_call.2.2.1 unloadClientMock "storage".data "m".data "x7".data
     (by decide) (by decide) (by decide),
   c2_parse_errors_no_remote_call.2.2.2.1 unloadClientMock "storage".data "m".data "0".data
     0 (by decide) (by decide) (by decide) (by decide),
   c2_parse_errors_no_remote_call.2.2.2.2.1 [] ⟨[], [], [], 0⟩ swapClientMock
     .incorrectUsage (by decide),
   c2_parse_errors_no_remote_call.2.2.2.2.2.1 "p".data "a:b:x7".data "a".data "b".data
     "x7".data ⟨[], [], [], 0⟩ (by decide) (by decide) (by decide),
   c2_parse_errors_no_remote_call.2.2.2.2.2.2.1 "p".data ":b:2".data "b".data "2".data
     ⟨[], [], [], 0⟩ 2 (by decide) (by decide) (by decide),
   c2_parse_errors_no_remote_call.2.2.2.2.2.2.2.1 "p".data "a::2".data "a".data "2".data
     ⟨[], [], [], 0⟩ 2 (by decide) (by decide) (by decide) (by decide),
   c2_parse_errors_no_remote_call.2.2.2.2.2.2.2.2.1 "p".data "a:b:0".data "a".data
     "b".data "0".data ⟨[], [], [], 0⟩ 0 (by decide) (by decide) (by decide) (by decide)
     (by decide) (by decide),
   c2_parse_errors_no_remote_call.2.2.2.2.2.2.2.2.2.1 "p".data "b".data 2,
   c2_parse_errors_no_remote_call.2.2.2.2.2.2.2.2.2.2.1 "p".data "a".data 2 (by decide),
   c2_parse_errors_no_remote_call.2.2.2.2.2.2.2.2.2.2.2 "p".data "a".data "b".data 0
     (by decide) (by decide) (by decide)⟩

end Snaptel
